import Mathlib

/-!
Verification development for the `splib07` loader library (USGS Spectral
Library Version 7 access layer).

The Python sources are shallowly embedded here:

* numeric data files are modelled as lists of already-parsed values
  (`Val`), since the spec treats "parse a text file of floats" as an
  external collaborator;
* floating-point values are modelled as exact rationals plus an explicit
  not-a-number marker (`Val.nan`), with IEEE comparison semantics
  (comparisons against `nan` are false);
* the filesystem (directory tree or zip member tree) is modelled as
  explicit data (`Archive`, `ResamplingDir`, ...);
* Python `dict`s are modelled as association lists with insert-or-update
  semantics (`dictInsert`);
* Python string operations are re-implemented structurally over
  `List Char` so that every definition evaluates by kernel reduction;
  Python compares and sorts strings lexicographically by code point,
  which coincides with the `List Char` / `String` lexicographic order;
* the third-party resampling kernel (`spectral.BandResampler`) and its
  `build_fwhm` helper are external collaborators, so functions that use
  them take them as explicit arguments;
* Python exceptions become `Except` error values, with one constructor
  per distinct raise site / error kind.
-/

/-! ### Character-list string operations

Python string primitives used by the loader, implemented by structural
recursion over `List Char` so they reduce in the kernel. -/

/-- Membership test for a character prefix: `charsHasPfx p s` is true when
the list `p` is an initial segment of `s` (Python `s.startswith(p)`). -/
def charsHasPfx : List Char → List Char → Bool
  | [], _ => true
  | _ :: _, [] => false
  | a :: ps, b :: bs => a == b && charsHasPfx ps bs

/-- Suffix test (Python `s.endswith(p)`). -/
def charsHasSfx (p s : List Char) : Bool :=
  charsHasPfx p.reverse s.reverse

/-- Substring containment (Python `p in s`). -/
def charsContains : List Char → List Char → Bool
  | s, p =>
    charsHasPfx p s ||
      match s with
      | [] => false
      | _ :: rest => charsContains rest p

/-- Split on a single separator character (Python `s.split(c)` /
`s.splitOn` for a one-character separator): always returns at least one
(possibly empty) part. -/
def charsSplit (sep : Char) : List Char → List (List Char)
  | [] => [[]]
  | c :: rest =>
    let r := charsSplit sep rest
    if c == sep then [] :: r
    else
      match r with
      | [] => [[c]]
      | p :: ps => (c :: p) :: ps

/-- Join parts with a separator character (Python `sep.join(parts)`). -/
def charsJoin (sep : Char) : List (List Char) → List Char
  | [] => []
  | [p] => p
  | p :: ps => p ++ sep :: charsJoin sep ps

/-- String wrapper for `charsHasPfx` (Python `s.startswith(p)`). -/
def strHasPfx (p s : String) : Bool :=
  charsHasPfx p.data s.data

/-- String wrapper for `charsHasSfx` (Python `s.endswith(p)`). -/
def strHasSfx (p s : String) : Bool :=
  charsHasSfx p.data s.data

/-- String wrapper for `charsContains` (Python `p in s`). -/
def strContains (s p : String) : Bool :=
  charsContains s.data p.data

/-- Python `s.removeprefix(p)`: drop `p` from the front when present,
otherwise return `s` unchanged. -/
def removePfx (p s : String) : String :=
  if charsHasPfx p.data s.data then ⟨s.data.drop p.data.length⟩ else s

/-- ASCII lower-casing of one character (sufficient for the ASCII
identifiers appearing in the archive). -/
def charLower (c : Char) : Char :=
  if 'A' ≤ c && c ≤ 'Z' then Char.ofNat (c.toNat + 32) else c

/-- ASCII lower-casing of a string (Python `s.lower()` on ASCII data). -/
def strLower (s : String) : String :=
  ⟨s.data.map charLower⟩

/-- Index of the last occurrence of a character, if any. -/
def lastIdxOf (c : Char) : List Char → Option Nat
  | [] => none
  | a :: rest =>
    match lastIdxOf c rest with
    | some i => some (i + 1)
    | none => if a == c then some 0 else none

/-- Python `PurePath(name).stem` for a single path component: the name
without its final suffix; a dot at position `0` or at the very end does
not start a suffix. -/
def charsStem (name : List Char) : List Char :=
  match lastIdxOf '.' name with
  | some i => if 0 < i ∧ i < name.length - 1 then name.take i else name
  | none => name

/-- Parsed `PurePath`: the component list of a relative path.  Python's
`PurePath` constructor splits on `/`, discards empty and `.` components,
and keeps `..` components verbatim. -/
def purePathParse (s : String) : List String :=
  ((charsSplit '/' s.data).filter (fun p => !(p.isEmpty || p == ['.']))).map
    (fun cs => String.mk cs)

/-- Insert-or-update into an association list, mirroring Python `dict`
assignment `d[k] = v` (updates in place if the key exists, otherwise
appends, preserving insertion order). -/
def dictInsert {κ α : Type} [DecidableEq κ] (k : κ) (v : α) :
    List (κ × α) → List (κ × α)
  | [] => [(k, v)]
  | (k₂, v₂) :: rest =>
    if k = k₂ then (k, v) :: rest else (k₂, v₂) :: dictInsert k v rest

/-! ### Numeric values and the deleted-channel policy (`_loader.py`) -/

/-- Model of a parsed floating-point value: either not-a-number or an
exact rational. -/
inductive Val where
  | nan : Val
  | num : ℚ → Val
deriving DecidableEq

/-- Lower end of the deleted-channel tolerance interval
(`_DeletedChannelRange[0] = -1.23001e34`). -/
def deletedChannelLo : ℚ := -123001 * 10 ^ 29

/-- Upper end of the deleted-channel tolerance interval
(`_DeletedChannelRange[1] = -1.22999e34`). -/
def deletedChannelHi : ℚ := -122999 * 10 ^ 29

/-- IEEE-style interval membership for one value: comparisons against
`nan` are false, numeric values compare exactly. -/
def valInRange (lo hi : ℚ) (v : Val) : Bool :=
  match v with
  | .nan => false
  | .num q => decide (lo ≤ q) && decide (q ≤ hi)

/-- Embedding of `_mask_in_range(arr, start, end)`: elementwise mask that
is true exactly for the entries lying in the closed interval. -/
def mask_in_range (arr : List Val) (lo hi : ℚ) : List Bool :=
  arr.map (valInRange lo hi)

/-- Embedding of `_usgs_deleted_mask(arr)`: the deleted-channel mask. -/
def usgs_deleted_mask (arr : List Val) : List Bool :=
  mask_in_range arr deletedChannelLo deletedChannelHi

/-- The three deleted-channel policies accepted by the loader. -/
inductive DeletedPolicy where
  | sigil
  | nan
  | drop
deriving DecidableEq

/-- Embedding of `_load_asciidata(file, deleted)` after the out-of-scope
text parsing step: `data` is the parsed value list, and the deleted-channel
policy is applied to it.  `sigil` returns the data untouched; `drop` keeps
the entries where the mask is false (`data[~mask]`); `nan` overwrites the
masked entries with not-a-number (`data[mask] = np.nan`). -/
def load_asciidata (data : List Val) (deleted : DeletedPolicy) : List Val :=
  match deleted with
  | .sigil => data
  | .drop =>
    (data.zip (usgs_deleted_mask data)).filterMap
      (fun p => if p.2 then none else some p.1)
  | .nan =>
    (data.zip (usgs_deleted_mask data)).map
      (fun p => if p.2 then Val.nan else p.1)

/-! ### Filesystem model

Only the directory shapes the loader actually traverses are modelled: the
`ASCIIdata` directory contains one directory per resampling, each of which
contains chapter subdirectories (holding the spectrum data files) and
loose text files (wavelength / bandpass tables). -/

/-- A data file: its name and its parsed numeric contents. -/
structure VFile where
  name : String
  data : List Val
deriving DecidableEq

/-- A chapter subdirectory inside a resampling directory. -/
structure ChapterDir where
  name : String
  files : List VFile
deriving DecidableEq

/-- One entry of a resampling directory: either a loose file or a chapter
subdirectory. -/
inductive RDirEntry where
  | file (f : VFile)
  | subdir (d : ChapterDir)
deriving DecidableEq

/-- Name of a directory entry, as reported by `iterdir`. -/
def RDirEntry.name : RDirEntry → String
  | .file f => f.name
  | .subdir d => d.name

/-- Opening a directory entry for reading: succeeds on files, fails on
directories (Python raises `IsADirectoryError`). -/
def RDirEntry.openData : RDirEntry → Option (List Val)
  | .file f => some f.data
  | .subdir _ => none

/-- A resampling directory (e.g. `ASCIIdata_splib07a`). -/
structure ResamplingDir where
  name : String
  entries : List RDirEntry
deriving DecidableEq

/-- The archive as seen by a constructed `Splib07` instance: the entries
of its `ASCIIdata` directory. -/
structure Archive where
  asciidata : List ResamplingDir
deriving DecidableEq

/-- Directory lookup by name inside `ASCIIdata` (Python `joinpath`
followed by `iterdir`, which raises `FileNotFoundError` when absent). -/
def Archive.findDir (root : Archive) (dirName : String) : Option ResamplingDir :=
  root.asciidata.find? (fun d => d.name = dirName)

/-- Embedding of `_scan_spectra(path)`: iterate the entries of a
resampling directory, descend into those whose name starts with
`"Chapter"`, and yield their files. -/
def scan_spectra (d : ResamplingDir) : List VFile :=
  d.entries.flatMap
    (fun e =>
      match e with
      | .subdir c => if strHasPfx "Chapter" c.name then c.files else []
      | .file _ => [])

/-! ### Sorting (Python `list.sort` on strings)

Python sorts strings in ascending lexicographic (code-point) order.  A
structurally recursive insertion sort over a code-point comparator is
used so the model evaluates by kernel reduction; it produces the same
output as any other ascending sort. -/

/-- Lexicographic comparison of character lists by code point:
`charsLe a b` is true when `a` is not strictly greater than `b`. -/
def charsLe : List Char → List Char → Bool
  | [], _ => true
  | _ :: _, [] => false
  | a :: as, b :: bs =>
    if a < b then true else if b < a then false else charsLe as bs

/-- String comparator used by the model's sort (Python `<=` on strings). -/
def strLeB (a b : String) : Bool :=
  charsLe a.data b.data

/-- Ordered insertion for the model's insertion sort. -/
def insertStr (a : String) : List String → List String
  | [] => [a]
  | b :: bs => if strLeB a b then a :: b :: bs else b :: insertStr a bs

/-- Ascending insertion sort on strings (model of Python `list.sort()`). -/
def sortStrs : List String → List String
  | [] => []
  | a :: as => insertStr a (sortStrs as)

/-! ### The `Splib07` facade (`_loader.py`) -/

/-- Errors raised by the loader facade, one constructor per raise site. -/
inductive LoadError where
  | unknownSpectrum (name : String)
  | unknownResampling (name : String)
  | notImplemented
  | fileNotFound
  | missingResampling (source name : String)
  | noFwhm (name source : String)
  | noWavelengths (name source : String)
  | indexError
  | isADirectory
deriving DecidableEq

/-- State of a constructed `Splib07` instance: the archive root plus the
`functools.cache` memo of `list_spectra`. -/
structure Splib07 where
  root : Archive
  spectraCache : Option (List String)
deriving DecidableEq

/-- A freshly constructed instance (its memo cache is empty). -/
def Splib07.mkFresh (root : Archive) : Splib07 :=
  { root := root, spectraCache := none }

/-- Spectrum basename extraction in `list_spectra`:
`"_".join(f.name.split("_")[1:-2])`. -/
def spectrumBasename (fileName : String) : String :=
  ⟨charsJoin '_' (((charsSplit '_' fileName.data).drop 1).dropLast.dropLast)⟩

/-- The uncached computation inside `Splib07.list_spectra`: scan the
`ASCIIdata_splib07a` directory, derive the basenames, and sort them.
Fails (Python `FileNotFoundError` from `iterdir`) when the measured
directory is missing. -/
def Splib07.listSpectraCompute (root : Archive) : Except LoadError (List String) :=
  match root.findDir "ASCIIdata_splib07a" with
  | none => .error .fileNotFound
  | some d => .ok (sortStrs ((scan_spectra d).map (fun f => spectrumBasename f.name)))

/-- Embedding of `Splib07.list_spectra` including its `@cache` memo: a
cached value is returned as-is; otherwise the value is computed and
stored.  (Python's `@cache` does not store anything when the computation
raises.) -/
def Splib07.list_spectra (st : Splib07) : Except LoadError (List String) × Splib07 :=
  match st.spectraCache with
  | some l => (.ok l, st)
  | none =>
    match Splib07.listSpectraCompute st.root with
    | .ok l => (.ok l, { st with spectraCache := some l })
    | .error e => (.error e, st)

/-- Embedding of `Splib07.list_resamplings`: the two fixed names followed
by the `ASCIIdata_splib07b_*` directory names with the prefix removed. -/
def Splib07.list_resamplings (root : Archive) : List String :=
  ["measured", "oversampled"] ++
    root.asciidata.filterMap
      (fun d =>
        if strHasPfx "ASCIIdata_splib07b_" d.name then
          some (removePfx "ASCIIdata_splib07b_" d.name)
        else none)

/-- A compiled regular-expression pattern, restricted to the literal
patterns exercised here: the pattern text plus its `re.IGNORECASE` flag. -/
structure RePattern where
  text : String
  ignoreCase : Bool
deriving DecidableEq

/-- Python `pattern.search(s) is not None` for a literal pattern: substring
containment, case-folded when the pattern carries `re.IGNORECASE`. -/
def RePattern.matches (p : RePattern) (s : String) : Bool :=
  if p.ignoreCase then strContains (strLower s) (strLower p.text)
  else strContains s p.text

/-- The `regex` argument of `Splib07.search_spectra`: either a plain
string or a precompiled pattern. -/
inductive PatternArg where
  | str (s : String)
  | compiled (p : RePattern)

/-- Embedding of `Splib07.search_spectra`: a precompiled pattern is used
as given; a string is compiled with `re.IGNORECASE`; the result filters
`list_spectra()`. -/
def Splib07.search_spectra (st : Splib07) (arg : PatternArg) :
    Except LoadError (List String) × Splib07 :=
  let pattern :=
    match arg with
    | .compiled p => p
    | .str s => { text := s, ignoreCase := true }
  match Splib07.list_spectra st with
  | (.ok l, st') => (.ok (l.filter (fun s => pattern.matches s)), st')
  | (.error e, st') => (.error e, st')

/-! ### Loading a spectrum (`Splib07._load`, `Splib07.load`) -/

/-- The resampling kernel collaborator (`spectral.BandResampler`): from
source centers, target centers, source widths and target widths it yields
the linear transform applied to the spectrum values.  Out of scope per the
spec, hence a parameter. -/
def ResampleKernel : Type :=
  List Val → List Val → List Val → List Val → List Val → List Val

/-- The `build_fwhm` collaborator: derives target widths from target
centers.  Out of scope per the spec, hence a parameter. -/
def BuildFwhm : Type :=
  List Val → List Val

/-- A value-object spectrum: measured values, wavelength centers, and
FWHM bandwidths. -/
structure Spectrum where
  spectrum : List Val
  wavelengths : List Val
  fwhm : List Val
deriving DecidableEq

/-- An explicit resampling target: wavelength centers, optionally paired
with FWHM widths. -/
inductive ResampleTarget where
  | centers (c : List Val)
  | centersFwhm (c f : List Val)

/-- The `resample` argument of `Splib07.load`: a named sampling or an
explicit target band model. -/
inductive ResampleArg where
  | named (s : String)
  | target (t : ResampleTarget)

/-- The resampling source chosen by `Splib07.load` (lines 141-144): the
name itself for a named sampling, otherwise `"oversampled"`. -/
def resampleSource : ResampleArg → String
  | .named s => s
  | .target _ => "oversampled"

/-- Embedding of `_resample(spectrum, to)`: target widths are taken from
the pair or derived via `build_fwhm`; the kernel transform is applied to
the spectrum values; the returned spectrum carries the target centers and
widths. -/
def resampleSpectrum (kernel : ResampleKernel) (buildFwhm : BuildFwhm)
    (sp : Spectrum) (tgt : ResampleTarget) : Spectrum :=
  match tgt with
  | .centersFwhm c f =>
    { spectrum := kernel sp.wavelengths c sp.fwhm f sp.spectrum
      wavelengths := c
      fwhm := f }
  | .centers c =>
    let f := buildFwhm c
    { spectrum := kernel sp.wavelengths c sp.fwhm f sp.spectrum
      wavelengths := c
      fwhm := f }

/-- The resampling label (`_RESAMPLING_FIXED_NAMES.get(source,
f"splib07b_{source}")`). -/
def resamplingLabel (source : String) : String :=
  if source = "measured" then "splib07a"
  else if source = "oversampled" then "splib07b"
  else "splib07b_" ++ source

/-- Filter for FWHM/bandpass candidate files (`_loader.py` lines
206-212). -/
def isFwhmCandidate (n : String) : Bool :=
  strHasSfx ".txt" n &&
    (strContains n "andpass" || strContains n "esolution") &&
    !strHasSfx "_nm.txt" n

/-- Filter for wavelength candidate files (`_loader.py` lines 224-232). -/
def isWavelengthCandidate (n : String) : Bool :=
  strHasSfx ".txt" n &&
    (strContains n "avelength" || strContains n "aves") &&
    !strHasSfx "_SRFs.txt" n &&
    !strHasSfx "Function.txt" n &&
    !strHasSfx "Functions.txt" n

/-- Hard-coded wavelength file used by the `ASD*` special case
(`_loader.py` lines 238-246). -/
def asdWavelengthFile (source : String) : String :=
  if source = "oversampled" then
    "splib07b_Wavelengths_ASDFR_0.35-2.5microns_2151ch.txt"
  else "splib07a_Wavelengths_ASD_0.35-2.5_microns_2151_ch.txt"

/-- Embedding of `Splib07._load(spectra_name, resample_source, deleted)`:
locate the resampling directory, find the first chapter file whose name
contains the spectrum name, load it, then locate and load the associated
FWHM and wavelength files using the sampling label extracted from the
spectrum file name. -/
def Splib07.loadRaw (root : Archive) (spectraName source : String)
    (deleted : DeletedPolicy) : Except LoadError Spectrum :=
  match root.findDir ("ASCIIdata_" ++ resamplingLabel source) with
  | none => .error .fileNotFound
  | some dir =>
    match (scan_spectra dir).find? (fun f => strContains f.name spectraName) with
    | none => .error (.missingResampling source spectraName)
    | some file =>
      let spectra := load_asciidata file.data deleted
      let parts := charsSplit '_' file.name.data
      if h2 : parts.length < 2 then .error .indexError
      else
        let samplingLabel : String := ⟨(parts.get ⟨parts.length - 2, by omega⟩).take 4⟩
        let fwhmCands0 := dir.entries.filter (fun e => isFwhmCandidate e.name)
        let fwhmCands :=
          if 1 < fwhmCands0.length then
            fwhmCands0.filter (fun e => strContains e.name samplingLabel)
          else fwhmCands0
        match hf : fwhmCands with
        | [fe] =>
          match fe.openData with
          | none => .error .isADirectory
          | some fwhmData =>
            let fwhm := load_asciidata fwhmData deleted
            let waveCands0 := dir.entries.filter (fun e => isWavelengthCandidate e.name)
            let waveCands :=
              if 1 < waveCands0.length then
                waveCands0.filter (fun e => strContains e.name samplingLabel)
              else waveCands0
            let waveChoice : Except LoadError RDirEntry :=
              match waveCands with
              | [we] => .ok we
              | _ =>
                if strHasPfx "ASD" samplingLabel then
                  match dir.entries.find? (fun e => e.name = asdWavelengthFile source) with
                  | some we => .ok we
                  | none => .error .fileNotFound
                else .error (.noWavelengths spectraName source)
            match waveChoice with
            | .error e => .error e
            | .ok we =>
              match we.openData with
              | none => .error .isADirectory
              | some waveData =>
                .ok { spectrum := spectra
                      wavelengths := load_asciidata waveData deleted
                      fwhm := fwhm }
        | _ => .error (.noFwhm spectraName source)

/-- Embedding of `Splib07.load` (raw format): check the identifier against
`list_spectra()`, derive the resampling source, check it against
`list_resamplings()`, reject the unimplemented `drop` policy, load via
`_load`, and finally apply the resampling kernel when the target was an
explicit band model. -/
def Splib07.load (st : Splib07) (spectraName : String) (resample : ResampleArg)
    (deleted : DeletedPolicy) (kernel : ResampleKernel) (buildFwhm : BuildFwhm) :
    Except LoadError Spectrum :=
  match Splib07.list_spectra st with
  | (.error e, _) => .error e
  | (.ok spectra, _) =>
    if spectraName ∉ spectra then .error (.unknownSpectrum spectraName)
    else
      let source := resampleSource resample
      if source ∉ Splib07.list_resamplings st.root then
        .error (.unknownResampling source)
      else if deleted = .drop then .error .notImplemented
      else
        match Splib07.loadRaw st.root spectraName source deleted with
        | .error e => .error e
        | .ok sp =>
          match resample with
          | .named _ => .ok sp
          | .target t => .ok (resampleSpectrum kernel buildFwhm sp t)

/-! ### Construction-time validation (`Splib07.__init__`,
`_assert_splib07_path`) -/

/-- The raw constructor argument: a missing path, a zip archive with the
given top-level member names, or a directory with the given top-level
entry names.  (`zipfile.is_zipfile` swallows the `OSError` for a missing
path and returns false, so the missing case reaches the `exists`
check.) -/
inductive RootInput where
  | missing
  | zipFile (entries : List String)
  | directory (entries : List String)
deriving DecidableEq

/-- Errors raised during construction. -/
inductive InitError where
  | fileNotFound
  | valueError (missing : List String)
deriving DecidableEq

/-- The state held by a successfully constructed instance: whether the
stored root is zip-backed, and the root's top-level entry names. -/
structure InitResult where
  zipBacked : Bool
  entries : List String
deriving DecidableEq

/-- Top-level entry names of a root input (what `iterdir` yields). -/
def RootInput.entries : RootInput → List String
  | .missing => []
  | .zipFile es => es
  | .directory es => es

/-- Embedding of `Splib07.__init__` together with `_assert_splib07_path`:
wrap the root as a zip path exactly when it is a zip file, fail with
`FileNotFoundError` when the path does not exist, then fail with
`ValueError` when the expected `ASCIIdata` subdirectory is absent from the
top-level entries.  No other content (in particular no `indexes`
directory) is checked. -/
def splib07Init (root : RootInput) : Except InitError InitResult :=
  let zipBacked := match root with | .zipFile _ => true | _ => false
  match root with
  | .missing => .error .fileNotFound
  | _ =>
    let actual := root.entries
    let missing := (["ASCIIdata"].filter (fun e => e ∉ actual))
    if missing.isEmpty then .ok { zipBacked := zipBacked, entries := actual }
    else .error (.valueError missing)

/-! ### The markup index (`_index.py`) -/

/-- Closed enumeration of the archive samplings (`Sampling` in
`_index.py`), one variant per archive path-segment label. -/
inductive Sampling where
  | MEASURED
  | OVERSAMPLED
  | ASD
  | AVIRIS_1995
  | AVIRIS_1996
  | AVIRIS_1997
  | AVIRIS_1998
  | AVIRIS_1999
  | AVIRIS_2000
  | AVIRIS_2001
  | AVIRIS_2005
  | AVIRIS_2006
  | AVIRIS_2009
  | AVIRIS_2010
  | AVIRIS_2011
  | AVIRIS_2012
  | AVIRIS_2013
  | AVIRIS_2014
  | CRISM_GLOBAL
  | CRISM_TARGET
  | HYMAP_2007
  | HYMAP_2014
  | HYPERION
  | M_3
  | VIMS
  | ASTER
  | LANDSAT_8
  | SENTINEL_2
  | WORLD_VIEW_3
deriving DecidableEq

/-- The string discriminant of each `Sampling` variant. -/
def Sampling.value : Sampling → String
  | .MEASURED => "splib07a"
  | .OVERSAMPLED => "splib07b"
  | .ASD => "splib07b_cvASD"
  | .AVIRIS_1995 => "splib07b_cvAVIRISc1995"
  | .AVIRIS_1996 => "splib07b_cvAVIRISc1996"
  | .AVIRIS_1997 => "splib07b_cvAVIRISc1997"
  | .AVIRIS_1998 => "splib07b_cvAVIRISc1998"
  | .AVIRIS_1999 => "splib07b_cvAVIRISc1999"
  | .AVIRIS_2000 => "splib07b_cvAVIRISc2000"
  | .AVIRIS_2001 => "splib07b_cvAVIRISc2001"
  | .AVIRIS_2005 => "splib07b_cvAVIRISc2005"
  | .AVIRIS_2006 => "splib07b_cvAVIRISc2006"
  | .AVIRIS_2009 => "splib07b_cvAVIRISc2009"
  | .AVIRIS_2010 => "splib07b_cvAVIRISc2010"
  | .AVIRIS_2011 => "splib07b_cvAVIRISc2011"
  | .AVIRIS_2012 => "splib07b_cvAVIRISc2012"
  | .AVIRIS_2013 => "splib07b_cvAVIRISc2013"
  | .AVIRIS_2014 => "splib07b_cvAVIRISc2014"
  | .CRISM_GLOBAL => "splib07b_cvCRISM-global"
  | .CRISM_TARGET => "splib07b_cvCRISMjMTR3"
  | .HYMAP_2007 => "splib07b_cvHYMAP2007"
  | .HYMAP_2014 => "splib07b_cvHYMAP2014"
  | .HYPERION => "splib07b_cvHYPERION"
  | .M_3 => "splib07b_cvM3-target"
  | .VIMS => "splib07b_cvVIMS"
  | .ASTER => "splib07b_rsASTER"
  | .LANDSAT_8 => "splib07b_rsLandsat8"
  | .SENTINEL_2 => "splib07b_rsSentinel2"
  | .WORLD_VIEW_3 => "splib07b_rsWorldView3"

/-- Lookup of a `Sampling` variant by its string discriminant, mirroring
the Python enum call `Sampling(sampling_id)` (which raises on an
unknown value, here `none`). -/
def Sampling.fromValue? (s : String) : Option Sampling :=
  match s with
  | "splib07a" => some .MEASURED
  | "splib07b" => some .OVERSAMPLED
  | "splib07b_cvASD" => some .ASD
  | "splib07b_cvAVIRISc1995" => some .AVIRIS_1995
  | "splib07b_cvAVIRISc1996" => some .AVIRIS_1996
  | "splib07b_cvAVIRISc1997" => some .AVIRIS_1997
  | "splib07b_cvAVIRISc1998" => some .AVIRIS_1998
  | "splib07b_cvAVIRISc1999" => some .AVIRIS_1999
  | "splib07b_cvAVIRISc2000" => some .AVIRIS_2000
  | "splib07b_cvAVIRISc2001" => some .AVIRIS_2001
  | "splib07b_cvAVIRISc2005" => some .AVIRIS_2005
  | "splib07b_cvAVIRISc2006" => some .AVIRIS_2006
  | "splib07b_cvAVIRISc2009" => some .AVIRIS_2009
  | "splib07b_cvAVIRISc2010" => some .AVIRIS_2010
  | "splib07b_cvAVIRISc2011" => some .AVIRIS_2011
  | "splib07b_cvAVIRISc2012" => some .AVIRIS_2012
  | "splib07b_cvAVIRISc2013" => some .AVIRIS_2013
  | "splib07b_cvAVIRISc2014" => some .AVIRIS_2014
  | "splib07b_cvCRISM-global" => some .CRISM_GLOBAL
  | "splib07b_cvCRISMjMTR3" => some .CRISM_TARGET
  | "splib07b_cvHYMAP2007" => some .HYMAP_2007
  | "splib07b_cvHYMAP2014" => some .HYMAP_2014
  | "splib07b_cvHYPERION" => some .HYPERION
  | "splib07b_cvM3-target" => some .M_3
  | "splib07b_cvVIMS" => some .VIMS
  | "splib07b_rsASTER" => some .ASTER
  | "splib07b_rsLandsat8" => some .LANDSAT_8
  | "splib07b_rsSentinel2" => some .SENTINEL_2
  | "splib07b_rsWorldView3" => some .WORLD_VIEW_3
  | _ => none

/-- Closed enumeration of the seven thematic chapters. -/
inductive Chapter where
  | MINERALS
  | SOILS_AND_MIXTURES
  | COATINGS
  | LIQUIDS
  | ORGANICS
  | ARTIFICIAL
  | VEGETATION
deriving DecidableEq

/-- The chapters in ordinal order (`len(Chapter) = 7`). -/
def Chapter.all : List Chapter :=
  [.MINERALS, .SOILS_AND_MIXTURES, .COATINGS, .LIQUIDS, .ORGANICS,
   .ARTIFICIAL, .VEGETATION]

/-- A relative path inside the archive, as a component list. -/
abbrev PurePath : Type := List String

/-- One table cell of a datatable document: its visible text and the
target of its hyperlink, when it contains one (`tag.find("a")`). -/
structure Cell where
  text : String
  href : Option String
deriving DecidableEq

/-- One table row (`row.find_all("td")`). -/
abbrev Row : Type := List Cell

/-- One table (its rows, `table.find_all("tr")`). -/
abbrev Table : Type := List Row

/-- A parsed datatable document: its table elements in document order. -/
abbrev Document : Type := List Table

/-- Errors produced while interpreting a single datatable row. -/
inductive RowErr where
  | destructure
  | missingAnchor (cellText : String)
deriving DecidableEq

/-- Errors produced by `_read_datatable`. -/
inductive DatatableError where
  | structuralMismatch (found : Nat)
  | rowError
deriving DecidableEq

/-- Errors produced by `_read_toc_sampling_paths`. -/
inductive TocError where
  | unknownSampling (id : String)
deriving DecidableEq

/-- One row of a chapter sub-index (`_SpectrumEntry`). -/
structure SpectrumEntry where
  name : String
  description : PurePath
  spectrum_asciidata : Option PurePath
  error_asciidata : Option PurePath
  wavelengths_asciidata : PurePath
  bandpass_asciidata : PurePath
  range_plot : Option PurePath
  wavelength_plot : PurePath
  bandpass_plot : PurePath
  extra_range_plots : List (Option PurePath)
deriving DecidableEq

/-- Mapping of all spectra contained in a chapter (`_ChapterIndex`), as
an insertion-ordered association list. -/
abbrev ChapterIndex : Type := List (String × SpectrumEntry)

/-- A sampling's index: its chapter sub-indices in chapter ordinal order
(`_SamplingIndex`). -/
abbrev SamplingIndex : Type := List ChapterIndex

/-- Embedding of `_extract_link_path(tag, missing_ok=False)`: the
overload used for required path cells; a cell without a hyperlink is a
`MissingRequiredField` error, otherwise the link target is parsed
verbatim as a `PurePath`. -/
def extract_link_path_req (tag : Cell) : Except RowErr PurePath :=
  match tag.href with
  | none => .error (.missingAnchor tag.text)
  | some h => .ok (purePathParse h)

/-- Embedding of `_extract_link_path(tag, missing_ok=True)`: the overload
used for optional path cells; a cell without a hyperlink records the
field as absent. -/
def extract_link_path_opt (tag : Cell) : Option PurePath :=
  match tag.href with
  | none => none
  | some h => some (purePathParse h)

/-- Spectrum identifier derivation: the row title with every run of one
or more spaces replaced by a single underscore
(`re.sub(_SPACES_PATTERN, "_", title.text)`). -/
def collapseSpacesAux : Bool → List Char → List Char
  | _, [] => []
  | inRun, c :: rest =>
    if c == ' ' then
      if inRun then collapseSpacesAux true rest
      else '_' :: collapseSpacesAux true rest
    else c :: collapseSpacesAux false rest

/-- String-level wrapper for the identifier derivation. -/
def collapseSpaces (s : String) : String :=
  ⟨collapseSpacesAux false s.data⟩

/-- Interpretation of one datatable row: destructure the cells into the
seven leading fields, a variable middle run of extra range plots, and the
two trailing fields, then extract each path.  A row with fewer than nine
cells fails to destructure (Python unpacking `ValueError`). -/
def parseRow (data : Row) : Except RowErr SpectrumEntry :=
  match data with
  | title :: description :: spectrumCell :: errorCell :: wavelengthsCell ::
      bandpassCell :: rangeCell :: rest =>
    match rest.reverse with
    | bandpassPlotCell :: wavelengthPlotCell :: extraRev =>
      match extract_link_path_req description,
          extract_link_path_req wavelengthsCell,
          extract_link_path_req bandpassCell,
          extract_link_path_req wavelengthPlotCell,
          extract_link_path_req bandpassPlotCell with
      | .ok descriptionPath, .ok wavelengthsPath, .ok bandpassPath,
          .ok wavelengthPlotPath, .ok bandpassPlotPath =>
        .ok
          { name := collapseSpaces title.text
            description := descriptionPath
            spectrum_asciidata := extract_link_path_opt spectrumCell
            error_asciidata := extract_link_path_opt errorCell
            wavelengths_asciidata := wavelengthsPath
            bandpass_asciidata := bandpassPath
            range_plot := extract_link_path_opt rangeCell
            wavelength_plot := wavelengthPlotPath
            bandpass_plot := bandpassPlotPath
            extra_range_plots := extraRev.reverse.map extract_link_path_opt }
      | .error e, _, _, _, _ => .error e
      | _, .error e, _, _, _ => .error e
      | _, _, .error e, _, _ => .error e
      | _, _, _, .error e, _ => .error e
      | _, _, _, _, .error e => .error e
    | _ => .error .destructure
  | _ => .error .destructure

/-- Parse the rows of one chapter table after the four header rows,
inserting each entry into the chapter mapping keyed by its identifier.
Any row-level failure is wrapped into the single `rowError` kind
(`except ValueError ... raise ValueError("failed to interpret ...")`). -/
def parseChapterRows (rows : List Row) (idx : ChapterIndex) :
    Except DatatableError ChapterIndex :=
  match rows with
  | [] => .ok idx
  | row :: rest =>
    match parseRow row with
    | .error _ => .error .rowError
    | .ok entry => parseChapterRows rest (dictInsert entry.name entry idx)

/-- Parse a list of chapter tables in order (the `zip` of the tables after
the banner with the seven chapter slots). -/
def parseChapterTables (tables : List Table) :
    Except DatatableError SamplingIndex :=
  match tables with
  | [] => .ok []
  | t :: rest =>
    match parseChapterRows (t.drop 4) [] with
    | .error e => .error e
    | .ok idx =>
      match parseChapterTables rest with
      | .error e => .error e
      | .ok others => .ok (idx :: others)

/-- Embedding of `_read_datatable(path)` after the out-of-scope HTML
parsing: check that the document holds exactly `len(Chapter) + 1` tables
(one banner plus seven chapters), then interpret the chapter tables,
zipping them against the chapter slots. -/
def read_datatable (doc : Document) : Except DatatableError SamplingIndex :=
  let expectedNumTables := Chapter.all.length + 1
  if doc.length ≠ expectedNumTables then
    .error (.structuralMismatch doc.length)
  else parseChapterTables ((doc.drop 1).take Chapter.all.length)

/-- One list item of the table-of-contents document, with the target of
its hyperlink. -/
structure TocItem where
  href : String
deriving DecidableEq

/-- Sampling-identifier extraction in `_read_toc_sampling_paths`: the
stem of the link target's file name, with the `datatable_` prefix
stripped. -/
def tocExtractId (href : String) : String :=
  removePfx "datatable_"
    ⟨charsStem (((purePathParse href).getLastD "").data)⟩

/-- Worker for `_read_toc_sampling_paths`: walk the list items in order,
resolving each extracted identifier against the closed `Sampling`
enumeration; an unknown identifier aborts with an error, a known one is
inserted (last write wins). -/
def readTocAux (items : List TocItem) (acc : List (Sampling × PurePath)) :
    Except TocError (List (Sampling × PurePath)) :=
  match items with
  | [] => .ok acc
  | item :: rest =>
    let sid := tocExtractId item.href
    match Sampling.fromValue? sid with
    | none => .error (.unknownSampling sid)
    | some s => readTocAux rest (dictInsert s (purePathParse item.href) acc)

/-- Embedding of `_read_toc_sampling_paths(toc_path)` after the
out-of-scope HTML parsing. -/
def read_toc_sampling_paths (items : List TocItem) :
    Except TocError (List (Sampling × PurePath)) :=
  readTocAux items []

/-! ### Supporting lemmas -/

/-- The `nan` policy is the pointwise overwrite of the in-range entries. -/
theorem load_asciidata_nan_eq_map (data : List Val) :
    load_asciidata data .nan =
      data.map
        (fun v =>
          if valInRange deletedChannelLo deletedChannelHi v then Val.nan else v) := by
  simp only [load_asciidata, usgs_deleted_mask, mask_in_range, List.zip]
  induction data with
  | nil => rfl
  | cons v rest ih =>
    simp only [List.map_cons, List.zipWith_cons_cons, ih]

/-- Chapter-row parsing never reports a structural (table-count)
mismatch. -/
theorem parseChapterRows_ne_structural (rows : List Row) (idx : ChapterIndex)
    (n : Nat) : parseChapterRows rows idx ≠ .error (.structuralMismatch n) := by
  induction rows generalizing idx with
  | nil => simp [parseChapterRows]
  | cons row rest ih =>
    simp only [parseChapterRows]
    cases parseRow row with
    | error e => simp
    | ok entry => exact ih _

/-- Chapter-table parsing never reports a structural (table-count)
mismatch. -/
theorem parseChapterTables_ne_structural (tables : List Table) (n : Nat) :
    parseChapterTables tables ≠ .error (.structuralMismatch n) := by
  induction tables with
  | nil => simp [parseChapterTables]
  | cons t rest ih =>
    simp only [parseChapterTables]
    cases h : parseChapterRows (t.drop 4) [] with
    | error e =>
      cases e with
      | structuralMismatch m => exact absurd h (parseChapterRows_ne_structural _ _ _)
      | rowError => simp
    | ok idx =>
      cases h2 : parseChapterTables rest with
      | error e =>
        intro hc
        injection hc with hc
        exact ih (by rw [h2, hc])
      | ok others => simp

/-! ### Claim theorems -/

/-- C4: under the `nan` policy, exactly the entries lying in the closed
interval `[-1.23001e34, -1.22999e34]` are replaced by not-a-number and
every other entry is unchanged (stated pointwise over all indices, with
length preserved via `getElem?`); under the `sigil` policy the array is
returned identical to the raw parsed array. -/
theorem c4_nan_sigil_policies (data : List Val) :
    (∀ i : Nat,
      (load_asciidata data .nan)[i]? =
        (data[i]?).map
          (fun v =>
            if valInRange deletedChannelLo deletedChannelHi v then Val.nan
            else v))
    ∧ load_asciidata data .sigil = data := by
  constructor
  · intro i
    rw [load_asciidata_nan_eq_map, List.getElem?_map]
  · rfl

/-- C6: `read_datatable` reports a structural (table-count) mismatch if
and only if the number of tables in the document differs from
`len(Chapter) + 1 = 8`; when the count matches, parsing proceeds past the
structural check (any later failure is a row-interpretation error, a
different kind). -/
theorem c6_structural_mismatch_iff (doc : Document) :
    ((∃ n, read_datatable doc = .error (.structuralMismatch n)) ↔
      doc.length ≠ Chapter.all.length + 1)
    ∧ Chapter.all.length + 1 = 8 := by
  constructor
  · constructor
    · rintro ⟨n, hn⟩ hlen
      rw [read_datatable, if_neg (by simp [hlen])] at hn
      exact parseChapterTables_ne_structural _ _ hn
    · intro hlen
      refine ⟨doc.length, ?_⟩
      rw [read_datatable, if_pos hlen]
  · rfl

/-- C10: construction fails with `FileNotFoundError` exactly on a missing
root, fails with `ValueError` exactly when the top-level entries lack
`ASCIIdata` (no `indexes` entry is required), and on success the stored
root is zip-backed exactly when the input was a zip file. -/
theorem c10_init_validation (root : RootInput) :
    (splib07Init root = .error .fileNotFound ↔ root = .missing)
    ∧ (∀ es, root = .zipFile es →
      if "ASCIIdata" ∈ es then
        splib07Init root = .ok { zipBacked := true, entries := es }
      else splib07Init root = .error (.valueError ["ASCIIdata"]))
    ∧ (∀ es, root = .directory es →
      if "ASCIIdata" ∈ es then
        splib07Init root = .ok { zipBacked := false, entries := es }
      else splib07Init root = .error (.valueError ["ASCIIdata"])) := by
  refine ⟨?_, ?_, ?_⟩
  · cases root with
    | missing => simp [splib07Init]
    | zipFile es =>
      simp only [splib07Init, RootInput.entries]
      by_cases h : "ASCIIdata" ∈ es <;> simp [h, List.filter]
    | directory es =>
      simp only [splib07Init, RootInput.entries]
      by_cases h : "ASCIIdata" ∈ es <;> simp [h, List.filter]
  · rintro es rfl
    by_cases h : "ASCIIdata" ∈ es <;>
      simp [h, splib07Init, RootInput.entries, List.filter]
  · rintro es rfl
    by_cases h : "ASCIIdata" ∈ es <;>
      simp [h, splib07Init, RootInput.entries, List.filter]

/-- Witness for C10 at concrete inputs: a directory containing only
`ASCIIdata` (in particular, no `indexes`) constructs successfully and is
not zip-backed, and a zip file without `ASCIIdata` is rejected with
`ValueError`. -/
theorem c10_init_validation_witness :
    splib07Init (.directory ["ASCIIdata"]) =
        .ok { zipBacked := false, entries := ["ASCIIdata"] }
    ∧ splib07Init (.zipFile ["other"]) = .error (.valueError ["ASCIIdata"]) := by
  constructor
  · have h := (c10_init_validation (.directory ["ASCIIdata"])).2.2 ["ASCIIdata"] rfl
    simpa using h
  · have h := (c10_init_validation (.zipFile ["other"])).2.1 ["other"] rfl
    simpa using h

/-! ### Claim C2: link-path extraction -/

/-- Modelled from the spec's words for claim C2 only (not from the code):
the claimed transformation of a link target, namely stripping any explicit
leading `../` parent-reference components. -/
def specStripParentRefs (p : PurePath) : PurePath :=
  (p : List String).dropWhile (fun c => c = "..")

/-- A concrete datatable row whose description cell links to a target
with an explicit `../` parent-reference prefix. -/
def c2Row : Row :=
  [{ text := "Some  Title", href := none },
   { text := "desc", href := some "../GIFs/desc.gif" },
   { text := "spec", href := some "../ASCIIdata/spec.txt" },
   { text := "err", href := none },
   { text := "waves", href := some "../ASCIIdata/waves.txt" },
   { text := "band", href := some "../ASCIIdata/band.txt" },
   { text := "range", href := none },
   { text := "wplot", href := some "w.gif" },
   { text := "bplot", href := some "b.gif" }]

/-- The entry produced for `c2Row`. -/
def c2Entry : SpectrumEntry :=
  { name := "Some_Title"
    description := ["..", "GIFs", "desc.gif"]
    spectrum_asciidata := some ["..", "ASCIIdata", "spec.txt"]
    error_asciidata := none
    wavelengths_asciidata := ["..", "ASCIIdata", "waves.txt"]
    bandpass_asciidata := ["..", "ASCIIdata", "band.txt"]
    range_plot := none
    wavelength_plot := ["w.gif"]
    bandpass_plot := ["b.gif"]
    extra_range_plots := [] }

/-- C2 counterexample: for the concrete row `c2Row`, the recorded
description path keeps its leading `..` component, so it differs from the
link target with the parent-reference prefix stripped — the claim as
stated is false at this input. -/
theorem c2_counterexample :
    parseRow c2Row = .ok c2Entry
    ∧ c2Entry.description = ["..", "GIFs", "desc.gif"]
    ∧ specStripParentRefs ["..", "GIFs", "desc.gif"] = ["GIFs", "desc.gif"]
    ∧ c2Entry.description ≠ specStripParentRefs c2Entry.description := by
  refine ⟨rfl, rfl, rfl, ?_⟩
  decide

/-- C2 (amended): every path recorded in the resulting `SpectrumEntry` is
the corresponding cell's link target parsed verbatim as a `PurePath` —
any explicit `../` parent-reference prefix is retained, not stripped.
Stated for every hyperlink-bearing cell of a successfully parsed row
(every row that parses has this destructured shape): description,
spectrum data, error data, wavelengths, bandpass, range plot, each extra
range plot, wavelength plot, and bandpass plot. -/
theorem c2_link_paths_verbatim (title description spectrumCell errorCell
    wavelengthsCell bandpassCell rangeCell : Cell) (extras : List Cell)
    (wavelengthPlotCell bandpassPlotCell : Cell) (e : SpectrumEntry)
    (h : parseRow (title :: description :: spectrumCell :: errorCell ::
        wavelengthsCell :: bandpassCell :: rangeCell ::
        (extras ++ [wavelengthPlotCell, bandpassPlotCell])) = .ok e) :
    (∀ href, description.href = some href → e.description = purePathParse href)
    ∧ (∀ href, spectrumCell.href = some href →
        e.spectrum_asciidata = some (purePathParse href))
    ∧ (∀ href, errorCell.href = some href →
        e.error_asciidata = some (purePathParse href))
    ∧ (∀ href, wavelengthsCell.href = some href →
        e.wavelengths_asciidata = purePathParse href)
    ∧ (∀ href, bandpassCell.href = some href →
        e.bandpass_asciidata = purePathParse href)
    ∧ (∀ href, rangeCell.href = some href →
        e.range_plot = some (purePathParse href))
    ∧ (∀ (i : Nat) (cell : Cell) (href : String), extras[i]? = some cell →
        cell.href = some href →
        e.extra_range_plots[i]? = some (some (purePathParse href)))
    ∧ (∀ href, wavelengthPlotCell.href = some href →
        e.wavelength_plot = purePathParse href)
    ∧ (∀ href, bandpassPlotCell.href = some href →
        e.bandpass_plot = purePathParse href) := by
  have hrev : (extras ++ [wavelengthPlotCell, bandpassPlotCell]).reverse =
      bandpassPlotCell :: wavelengthPlotCell :: extras.reverse := by
    simp
  simp only [parseRow, hrev] at h
  cases h1 : extract_link_path_req description with
  | error e1 => simp [h1] at h
  | ok p1 =>
  cases h2 : extract_link_path_req wavelengthsCell with
  | error e2 => simp [h1, h2] at h
  | ok p2 =>
  cases h3 : extract_link_path_req bandpassCell with
  | error e3 => simp [h1, h2, h3] at h
  | ok p3 =>
  cases h4 : extract_link_path_req wavelengthPlotCell with
  | error e4 => simp [h1, h2, h3, h4] at h
  | ok p4 =>
  cases h5 : extract_link_path_req bandpassPlotCell with
  | error e5 => simp [h1, h2, h3, h4, h5] at h
  | ok p5 =>
  simp only [h1, h2, h3, h4, h5] at h
  injection h with h
  subst h
  refine ⟨?_, ?_, ?_, ?_, ?_, ?_, ?_, ?_, ?_⟩
  · intro href hhref
    simp only [extract_link_path_req, hhref] at h1
    injection h1 with h1
    simpa using h1.symm
  · intro href hhref
    simp [extract_link_path_opt, hhref]
  · intro href hhref
    simp [extract_link_path_opt, hhref]
  · intro href hhref
    simp only [extract_link_path_req, hhref] at h2
    injection h2 with h2
    simpa using h2.symm
  · intro href hhref
    simp only [extract_link_path_req, hhref] at h3
    injection h3 with h3
    simpa using h3.symm
  · intro href hhref
    simp [extract_link_path_opt, hhref]
  · intro i cell href hi hhref
    simp [List.reverse_reverse, List.getElem?_map, hi, extract_link_path_opt,
      hhref]
  · intro href hhref
    simp only [extract_link_path_req, hhref] at h4
    injection h4 with h4
    simpa using h4.symm
  · intro href hhref
    simp only [extract_link_path_req, hhref] at h5
    injection h5 with h5
    simpa using h5.symm


/-! ### Claim C7: table-of-contents parsing -/

/-- When some list item's extracted identifier is unknown, the TOC walk
fails with `UnknownSampling` carrying the first such identifier. -/
theorem readTocAux_first_bad (items : List TocItem)
    (acc : List (Sampling × PurePath)) (item : TocItem)
    (hfind : items.find?
        (fun i => (Sampling.fromValue? (tocExtractId i.href)).isNone) =
      some item) :
    readTocAux items acc = .error (.unknownSampling (tocExtractId item.href)) := by
  induction items generalizing acc with
  | nil => simp at hfind
  | cons it rest ih =>
    rw [List.find?] at hfind
    cases hb : Sampling.fromValue? (tocExtractId it.href) with
    | none =>
      rw [hb] at hfind
      simp only [Option.isNone_none] at hfind
      injection hfind with hfind
      subst hfind
      simp [readTocAux, hb]
    | some s =>
      rw [hb] at hfind
      simp only [Option.isNone_some] at hfind
      simp only [readTocAux, hb]
      exact ih _ hfind

/-- On success, every list item's extracted identifier resolved to a
`Sampling` variant. -/
theorem readTocAux_ok_all_known (items : List TocItem)
    (acc m : List (Sampling × PurePath)) (hok : readTocAux items acc = .ok m) :
    ∀ item ∈ items, (Sampling.fromValue? (tocExtractId item.href)).isSome := by
  induction items generalizing acc with
  | nil => intro item hmem; simp at hmem
  | cons it rest ih =>
    intro item hmem
    simp only [readTocAux] at hok
    cases hb : Sampling.fromValue? (tocExtractId it.href) with
    | none => rw [hb] at hok; exact absurd hok (by simp)
    | some s =>
      rw [hb] at hok
      rcases List.mem_cons.1 hmem with rfl | hmem₂
      · simp [hb]
      · exact ih _ hok item hmem₂

/-- C7: the sampling identifier of each table-of-contents list item is
the link target's file stem with the `datatable_` prefix stripped
(`tocExtractId`); when the first item carrying an identifier that matches
no `Sampling` variant exists, the parse fails with an `UnknownSampling`
error naming that identifier (rather than skipping the item), and on
success every item's identifier resolved to a variant. -/
theorem c7_toc_unknown_sampling_fails (items : List TocItem) :
    (∀ item, items.find?
        (fun i => (Sampling.fromValue? (tocExtractId i.href)).isNone) =
          some item →
      read_toc_sampling_paths items =
        .error (.unknownSampling (tocExtractId item.href)))
    ∧ (∀ m, read_toc_sampling_paths items = .ok m →
      ∀ item ∈ items, (Sampling.fromValue? (tocExtractId item.href)).isSome) := by
  constructor
  · intro item hfind
    exact readTocAux_first_bad items [] item hfind
  · intro m hok
    exact readTocAux_ok_all_known items [] m hok

/-- Witness for C7 at a concrete input: a TOC whose second item's stem
`datatable_bogus` yields the unknown identifier `bogus` makes the parse
fail with `UnknownSampling "bogus"`. -/
theorem c7_toc_unknown_sampling_fails_witness :
    read_toc_sampling_paths
        [{ href := "datatable_splib07a.html" }, { href := "datatable_bogus.html" }] =
      .error (.unknownSampling "bogus") := by
  have h :=
    (c7_toc_unknown_sampling_fails
        [{ href := "datatable_splib07a.html" }, { href := "datatable_bogus.html" }]).1
      { href := "datatable_bogus.html" } (by rfl)
  simpa using h

/-! ### Claim C9: `list_spectra` ordering and memoization -/

/-- The code-point comparator agrees with the lexicographic order on
character lists. -/
theorem charsLe_iff_not_lex (as : List Char) :
    ∀ bs, charsLe as bs = true ↔ ¬ List.Lex (· < ·) bs as := by
  induction as with
  | nil =>
    intro bs
    simp only [charsLe, true_iff]
    exact List.Lex.not_nil_right _ _
  | cons a as ih =>
    intro bs
    cases bs with
    | nil =>
      simp only [charsLe]
      exact iff_of_false (by simp) (not_not_intro List.Lex.nil)
    | cons b bs =>
      by_cases hab : a < b
      · have hne : ¬ b < a := asymm hab
        simp only [charsLe, if_pos hab, true_iff]
        intro hlex
        cases hlex with
        | cons h => exact lt_irrefl a hab
        | rel h => exact hne h
      · by_cases hba : b < a
        · simp only [charsLe, if_neg hab, if_pos hba]
          exact iff_of_false (by simp) (not_not_intro (List.Lex.rel hba))
        · have heq : a = b := le_antisymm (le_of_not_lt hba) (le_of_not_lt hab)
          subst heq
          simp only [charsLe, if_neg hab]
          rw [ih bs]
          exact (not_congr List.Lex.cons_iff).symm

/-- The string comparator used by the model's sort agrees with the
canonical lexicographic order on strings. -/
theorem strLeB_iff_le (a b : String) : strLeB a b = true ↔ a ≤ b := by
  rw [String.le_iff_toList_le]
  have hlt : (b.toList < a.toList) ↔ List.Lex (· < ·) b.toList a.toList := Iff.rfl
  rw [← not_lt, hlt]
  exact charsLe_iff_not_lex a.data b.data

/-- Membership through ordered insertion. -/
theorem mem_insertStr (a x : String) (l : List String) :
    x ∈ insertStr a l ↔ x = a ∨ x ∈ l := by
  induction l with
  | nil => simp [insertStr]
  | cons b bs ih =>
    by_cases hab : strLeB a b
    · simp [insertStr, hab]
    · simp [insertStr, hab, ih]
      tauto

/-- Ordered insertion preserves sortedness. -/
theorem sorted_insertStr (a : String) (l : List String)
    (h : List.Sorted (· ≤ ·) l) : List.Sorted (· ≤ ·) (insertStr a l) := by
  induction l with
  | nil => simp [insertStr]
  | cons b bs ih =>
    rw [List.sorted_cons] at h
    obtain ⟨hb, hbs⟩ := h
    by_cases hab : strLeB a b
    · have hale : a ≤ b := (strLeB_iff_le a b).1 hab
      simp only [insertStr, if_pos hab]
      rw [List.sorted_cons]
      refine ⟨?_, ?_⟩
      · intro x hx
        rcases List.mem_cons.1 hx with rfl | hmem
        · exact hale
        · exact le_trans hale (hb x hmem)
      · rw [List.sorted_cons]
        exact ⟨hb, hbs⟩
    · have hba : b ≤ a := by
        by_contra hc
        exact hab ((strLeB_iff_le a b).2 (le_of_not_le hc))
      simp only [insertStr, if_neg hab]
      rw [List.sorted_cons]
      refine ⟨?_, ih hbs⟩
      intro x hx
      rcases (mem_insertStr a x bs).1 hx with rfl | hmem
      · exact hba
      · exact hb x hmem

/-- The model's insertion sort produces an ascending list. -/
theorem sorted_sortStrs (l : List String) :
    List.Sorted (· ≤ ·) (sortStrs l) := by
  induction l with
  | nil => simp [sortStrs]
  | cons a as ih => exact sorted_insertStr a (sortStrs as) ih

/-- C9: when `list_spectra` succeeds on a freshly constructed instance,
the returned identifiers are in ascending lexicographic order, and a
later call on the resulting instance returns the identical memoized
list (and leaves the state unchanged). -/
theorem c9_list_spectra_sorted_memoized (root : Archive) (l : List String)
    (st' : Splib07)
    (h : Splib07.list_spectra (Splib07.mkFresh root) = (.ok l, st')) :
    List.Sorted (· ≤ ·) l ∧ Splib07.list_spectra st' = (.ok l, st') := by
  simp only [Splib07.list_spectra, Splib07.mkFresh] at h
  cases hc : Splib07.listSpectraCompute root with
  | error e => rw [hc] at h; exact absurd h (by simp)
  | ok l0 =>
    rw [hc] at h
    rw [Prod.mk.injEq] at h
    obtain ⟨h1, h2⟩ := h
    rw [Except.ok.injEq] at h1
    subst h1
    subst h2
    constructor
    · revert hc
      simp only [Splib07.listSpectraCompute]
      cases Archive.findDir root "ASCIIdata_splib07a" with
      | none => intro hc; exact absurd hc (by simp)
      | some d =>
        intro hc
        rw [Except.ok.injEq] at hc
        rw [← hc]
        exact sorted_sortStrs _
    · simp [Splib07.list_spectra]

/-! ### A small concrete archive used by witnesses and counterexamples -/

/-- A minimal archive: one measured resampling directory containing one
chapter with one spectrum file, whose derived identifier is `ABC_x`. -/
def cexArchive : Archive :=
  { asciidata :=
      [{ name := "ASCIIdata_splib07a"
         entries :=
           [.subdir
              { name := "ChapterM_Minerals"
                files := [{ name := "splib07a_ABC_x_BECKb_AREF.txt"
                            data := [Val.num 1] }] }] }] }

/-- Witness for C9 at the concrete archive `cexArchive`: the first call
computes `["ABC_x"]`, which is sorted, and the call on the resulting
state returns the identical memoized list with the state unchanged. -/
theorem c9_list_spectra_sorted_memoized_witness :
    List.Sorted (· ≤ ·) ["ABC_x"]
    ∧ Splib07.list_spectra
          { root := cexArchive, spectraCache := some ["ABC_x"] } =
        (.ok ["ABC_x"], { root := cexArchive, spectraCache := some ["ABC_x"] }) :=
  c9_list_spectra_sorted_memoized cexArchive ["ABC_x"]
    { root := cexArchive, spectraCache := some ["ABC_x"] } (by rfl)

/-! ### Claim C5: `search_spectra` -/

/-- C5 (amended): `search_spectra` returns exactly the identifiers of
`list_spectra()` matched by the pattern, in order; a string pattern is
compiled with `re.IGNORECASE` and therefore matches case-insensitively,
while a precompiled pattern is used with its own case sensitivity. -/
theorem c5_search_filters (st : Splib07) (l : List String)
    (h : (Splib07.list_spectra st).1 = .ok l) :
    (∀ s : String,
      (Splib07.search_spectra st (.str s)).1 =
        .ok (l.filter (fun nm => strContains (strLower nm) (strLower s))))
    ∧ (∀ p : RePattern,
      (Splib07.search_spectra st (.compiled p)).1 =
        .ok (l.filter (fun nm => p.matches nm))) := by
  cases hls : Splib07.list_spectra st with
  | mk res st2 =>
    rw [hls] at h
    simp only at h
    cases res with
    | error e => exact absurd h (by simp)
    | ok l2 =>
      rw [Except.ok.injEq] at h
      subst h
      constructor
      · intro s
        simp [Splib07.search_spectra, hls, RePattern.matches]
      · intro p
        simp [Splib07.search_spectra, hls]

/-- C5 counterexample: at the concrete instance over `cexArchive`, the
precompiled case-sensitive pattern `abc` returns the empty list, while a
case-insensitive match against `list_spectra() = ["ABC_x"]` would return
`["ABC_x"]` — so the claim that every pattern argument is matched
case-insensitively is false at this input. -/
theorem c5_counterexample :
    (Splib07.search_spectra (Splib07.mkFresh cexArchive)
        (.compiled { text := "abc", ignoreCase := false })).1 = .ok []
    ∧ (Splib07.list_spectra (Splib07.mkFresh cexArchive)).1 = .ok ["ABC_x"]
    ∧ ["ABC_x"].filter (fun nm => strContains (strLower nm) (strLower "abc")) =
      ["ABC_x"]
    ∧ (Except.ok [] : Except LoadError (List String)) ≠ .ok ["ABC_x"] := by
  refine ⟨rfl, rfl, rfl, ?_⟩
  simp

/-- Witness for C5 (amended) at a concrete input: searching for the
string pattern `abc` returns exactly the case-insensitive filter of the
spectrum list. -/
theorem c5_search_filters_witness :
    (Splib07.search_spectra (Splib07.mkFresh cexArchive) (.str "abc")).1 =
      .ok (["ABC_x"].filter (fun nm => strContains (strLower nm) (strLower "abc"))) :=
  (c5_search_filters (Splib07.mkFresh cexArchive) ["ABC_x"] (by rfl)).1 "abc"

/-! ### Claims C3, C1, C8: the `load` dispatch -/

/-- C3: when the requested identifier is absent from the active spectrum
list, `load` fails with the `UnknownSpectrum` error carrying that
identifier — for every resampling argument, policy, and collaborator —
and returns no spectrum data. -/
theorem c3_unknown_spectrum_error (st : Splib07) (l : List String)
    (h : (Splib07.list_spectra st).1 = .ok l) (spectraName : String)
    (hn : spectraName ∉ l) (resample : ResampleArg) (deleted : DeletedPolicy)
    (kernel : ResampleKernel) (buildFwhm : BuildFwhm) :
    Splib07.load st spectraName resample deleted kernel buildFwhm =
      .error (.unknownSpectrum spectraName) := by
  cases hls : Splib07.list_spectra st with
  | mk res st2 =>
    rw [hls] at h
    simp only at h
    cases res with
    | error e => exact absurd h (by simp)
    | ok l2 =>
      rw [Except.ok.injEq] at h
      subst h
      simp [Splib07.load, hls, hn]

/-- Witness for C3 at a concrete input: the unknown identifier `nope`
yields `UnknownSpectrum "nope"`. -/
theorem c3_unknown_spectrum_error_witness :
    Splib07.load (Splib07.mkFresh cexArchive) "nope" (.named "measured") .nan
        (fun _ _ _ _ v => v) (fun c => c) =
      .error (.unknownSpectrum "nope") :=
  c3_unknown_spectrum_error (Splib07.mkFresh cexArchive) ["ABC_x"] (by rfl)
    "nope" (by decide) (.named "measured") .nan (fun _ _ _ _ v => v)
    (fun c => c)

/-- C1 (the code's actual behavior): for every known identifier and known
resampling source, `load` with the `drop` policy raises
`NotImplementedError` before loading anything — no shortened spectrum is
ever returned. -/
theorem c1_drop_raises_not_implemented (st : Splib07) (l : List String)
    (h : (Splib07.list_spectra st).1 = .ok l) (spectraName : String)
    (hn : spectraName ∈ l) (resample : ResampleArg)
    (hr : resampleSource resample ∈ Splib07.list_resamplings st.root)
    (kernel : ResampleKernel) (buildFwhm : BuildFwhm) :
    Splib07.load st spectraName resample .drop kernel buildFwhm =
      .error .notImplemented := by
  cases hls : Splib07.list_spectra st with
  | mk res st2 =>
    rw [hls] at h
    simp only at h
    cases res with
    | error e => exact absurd h (by simp)
    | ok l2 =>
      rw [Except.ok.injEq] at h
      subst h
      simp [Splib07.load, hls, hn, hr]

/-- Witness for C1 at a concrete input: loading the known spectrum
`ABC_x` in the known `measured` sampling with the `drop` policy fails
with `NotImplementedError`. -/
theorem c1_drop_raises_not_implemented_witness :
    Splib07.load (Splib07.mkFresh cexArchive) "ABC_x" (.named "measured") .drop
        (fun _ _ _ _ v => v) (fun c => c) = .error .notImplemented :=
  c1_drop_raises_not_implemented (Splib07.mkFresh cexArchive) ["ABC_x"]
    (by rfl) "ABC_x" (by decide) (.named "measured") (by decide)
    (fun _ _ _ _ v => v) (fun c => c)

/-- The `oversampled` source name is always present in
`list_resamplings` (it heads the fixed-name list). -/
theorem oversampled_mem_list_resamplings (root : Archive) :
    "oversampled" ∈ Splib07.list_resamplings root := by
  simp [Splib07.list_resamplings]

/-- C8: for a known identifier and a non-`drop` policy, passing an
explicit band model always loads the raw data from the `oversampled`
baseline sampling and then applies the resampling kernel to it, whereas
passing a known named sampling loads that sampling's native data and
applies no resampling. -/
theorem c8_resample_dispatch (st : Splib07) (l : List String)
    (h : (Splib07.list_spectra st).1 = .ok l) (spectraName : String)
    (hn : spectraName ∈ l) (deleted : DeletedPolicy) (hd : deleted ≠ .drop)
    (kernel : ResampleKernel) (buildFwhm : BuildFwhm) :
    (∀ t : ResampleTarget,
      Splib07.load st spectraName (.target t) deleted kernel buildFwhm =
        (Splib07.loadRaw st.root spectraName "oversampled" deleted).map
          (fun sp => resampleSpectrum kernel buildFwhm sp t))
    ∧ (∀ s : String, s ∈ Splib07.list_resamplings st.root →
      Splib07.load st spectraName (.named s) deleted kernel buildFwhm =
        Splib07.loadRaw st.root spectraName s deleted) := by
  cases hls : Splib07.list_spectra st with
  | mk res st2 =>
    rw [hls] at h
    simp only at h
    cases res with
    | error e => exact absurd h (by simp)
    | ok l2 =>
      rw [Except.ok.injEq] at h
      subst h
      constructor
      · intro t
        simp only [Splib07.load, hls, resampleSource]
        rw [if_neg (not_not_intro hn),
          if_neg (not_not_intro (oversampled_mem_list_resamplings st.root)),
          if_neg hd]
        cases hlr : Splib07.loadRaw st.root spectraName "oversampled" deleted with
        | error e => simp [hlr, Except.map]
        | ok sp => simp [hlr, Except.map]
      · intro s hs
        simp only [Splib07.load, hls, resampleSource]
        rw [if_neg (not_not_intro hn), if_neg (not_not_intro hs), if_neg hd]
        cases hlr : Splib07.loadRaw st.root spectraName s deleted with
        | error e => simp [hlr]
        | ok sp => simp [hlr]

/-- Witness for C8 at a concrete input: loading `ABC_x` with the named
`measured` sampling equals the raw load from that sampling with no
resampling applied. -/
theorem c8_resample_dispatch_witness :
    Splib07.load (Splib07.mkFresh cexArchive) "ABC_x" (.named "measured") .nan
        (fun _ _ _ _ v => v) (fun c => c) =
      Splib07.loadRaw (Splib07.mkFresh cexArchive).root "ABC_x" "measured" .nan :=
  (c8_resample_dispatch (Splib07.mkFresh cexArchive) ["ABC_x"] (by rfl)
      "ABC_x" (by decide) .nan (by decide) (fun _ _ _ _ v => v)
      (fun c => c)).2 "measured" (by decide)

/-- Witness for C2 (amended) at the concrete row `c2Row`: the recorded
description, spectrum-data, wavelengths, and bandpass-plot paths are the
verbatim parses of the corresponding cells' link targets, retained `..`
prefixes included. -/
theorem c2_link_paths_verbatim_witness :
    parseRow c2Row = .ok c2Entry
    ∧ c2Entry.description = purePathParse "../GIFs/desc.gif"
    ∧ c2Entry.spectrum_asciidata = some (purePathParse "../ASCIIdata/spec.txt")
    ∧ c2Entry.wavelengths_asciidata = purePathParse "../ASCIIdata/waves.txt"
    ∧ c2Entry.bandpass_plot = purePathParse "b.gif" := by
  have hc :=
    c2_link_paths_verbatim { text := "Some  Title", href := none }
      { text := "desc", href := some "../GIFs/desc.gif" }
      { text := "spec", href := some "../ASCIIdata/spec.txt" }
      { text := "err", href := none }
      { text := "waves", href := some "../ASCIIdata/waves.txt" }
      { text := "band", href := some "../ASCIIdata/band.txt" }
      { text := "range", href := none } []
      { text := "wplot", href := some "w.gif" }
      { text := "bplot", href := some "b.gif" } c2Entry (by rfl)
  exact ⟨rfl, hc.1 "../GIFs/desc.gif" rfl,
    hc.2.1 "../ASCIIdata/spec.txt" rfl,
    hc.2.2.2.1 "../ASCIIdata/waves.txt" rfl,
    hc.2.2.2.2.2.2.2.2 "b.gif" rfl⟩
